import Mathlib

/-
Verification development for the cachex memoization decorator.

Shallow embedding of:
  - src/cachex/decorator/CacheKeyHelper.py  (argument normalization, key functions)
  - src/cachex/decorator/Decorator.py       (exceptions normalization, wrapper, decoration checks)
  - src/cachex/caches/CacheMixin.py         (hit/miss counters, clear, info)

Machine-level Python details (object identity, hashing) are modelled structurally:
values are a first-order datatype, exceptions carry a type tag and message, and
the decorated wrapper is modelled as an explicit state-passing function over the
cache container state.
-/

set_option autoImplicit false
set_option linter.unusedSectionVars false

namespace Cachex

/-! ## Python values and key normalization (CacheKeyHelper.py) -/

/-- A model of python values as they appear in call arguments.
`cacheRef` stands for a cache container instance (referenced by identity, a
numeric id in the model); `dict` keys are kept as written (the source does not
normalize mapping keys, only mapping values). -/
inductive PyVal : Type where
  | int (n : Int)
  | str (s : String)
  | bool (b : Bool)
  | pynone
  | bytes (bs : List Nat)
  | list (xs : List PyVal)
  | tuple (xs : List PyVal)
  | dict (items : List (PyVal × PyVal))
  | cacheRef (id : Nat)

mutual

/-- CacheKeyHelper.make_obj_hashable: cache instances pass through by identity;
mappings become a hashable-dict surrogate with normalized values; non-scalar
iterables (list/tuple; str and bytes are scalar) become tuples of normalized
items; everything else passes through unchanged. -/
def make_obj_hashable : PyVal → PyVal
  | PyVal.cacheRef i => PyVal.cacheRef i
  | PyVal.dict items => PyVal.dict (makePairsHashable items)
  | PyVal.list xs => PyVal.tuple (makeListHashable xs)
  | PyVal.tuple xs => PyVal.tuple (makeListHashable xs)
  | PyVal.int n => PyVal.int n
  | PyVal.str s => PyVal.str s
  | PyVal.bool b => PyVal.bool b
  | PyVal.pynone => PyVal.pynone
  | PyVal.bytes bs => PyVal.bytes bs

/-- CacheKeyHelper.make_items_hashable on a non-scalar iterable: normalize each
item with make_obj_hashable. -/
def makeListHashable : List PyVal → List PyVal
  | [] => []
  | x :: xs => make_obj_hashable x :: makeListHashable xs

/-- CacheKeyHelper.make_items_hashable on a mapping: keys unchanged, values
normalized with make_obj_hashable. -/
def makePairsHashable : List (PyVal × PyVal) → List (PyVal × PyVal)
  | [] => []
  | (k, v) :: xs => (k, make_obj_hashable v) :: makePairsHashable xs

end

/-- CacheKeyHelper.make_items_hashable applied to the kwargs mapping in
key_func: keyword names unchanged, values normalized. -/
def makeKwargsHashable : List (String × PyVal) → List (String × PyVal)
  | [] => []
  | (k, v) :: xs => (k, make_obj_hashable v) :: makeKwargsHashable xs

/-- A cache key: the positional arguments and keyword items handed to the key
function. Modelled from the spec: the standard key function (cachetools
hashkey, not under src/) builds an order-sensitive tuple from the positional
arguments and the keyword items. -/
structure CacheKey : Type where
  pos : List PyVal
  kw : List (String × PyVal)

/-- Modelled from the spec: cachetools.keys.hashkey (the standard untyped key
function, not under src/) — an order-sensitive tuple of the given arguments. -/
def hashkey (args : List PyVal) (kwargs : List (String × PyVal)) : CacheKey :=
  { pos := args, kw := kwargs }

/-- CacheKeyHelper.make_key_func, plain-function branch (lines 170-175):
hash the (normalized) function arguments. -/
def key_func_function (args : List PyVal) (kwargs : List (String × PyVal)) : CacheKey :=
  hashkey (makeListHashable args) (makeKwargsHashable kwargs)

/-- CacheKeyHelper.make_key_func, method branch without stateful (lines
162-168): pop the receiver ('self' or 'cls') off the positional arguments and
hash the (normalized) rest. An empty argument list is the unpacking error,
modelled as Option.none. -/
def key_func_method (args : List PyVal) (kwargs : List (String × PyVal)) : Option CacheKey :=
  match args with
  | [] => Option.none
  | _ :: rest => some (hashkey (makeListHashable rest) (makeKwargsHashable kwargs))

/-- CacheKeyHelper.make_key_func when an alternate (custom, unrecognized) key
function is configured (lines 130-132 select it; lines 170-175 apply it):
the alternate key function is applied to the arguments AFTER they have been
passed through make_items_hashable, exactly like the standard key functions. -/
def key_func_custom (altkey : List PyVal → List (String × PyVal) → CacheKey)
    (args : List PyVal) (kwargs : List (String × PyVal)) : CacheKey :=
  altkey (makeListHashable args) (makeKwargsHashable kwargs)

/-! ## Exceptions parameter normalization (Decorator.py, Decorator.__init__ lines 180-191) -/

/-- Exception type tags. `exceptionBase` is Python's Exception class;
`keyboardInterrupt` subclasses only BaseException, not Exception. -/
inductive ExcType : Type where
  | exceptionBase
  | valueError
  | typeError
  | keyError
  | keyboardInterrupt
deriving DecidableEq

/-- Python issubclass on the modelled exception types: reflexive, and every
type except KeyboardInterrupt is a subclass of Exception. No other hierarchy
is modelled. -/
def excSubclass (t u : ExcType) : Bool :=
  t == u || (u == ExcType.exceptionBase && t != ExcType.keyboardInterrupt)

/-- An exception instance: its runtime type and its message. -/
structure PyExc : Type where
  ty : ExcType
  msg : String
deriving DecidableEq

/-- An element of an iterable passed as the `exceptions` decorator parameter:
a type that may or may not subclass Exception, or something that is not a type
at all (a number, a string, ...). -/
inductive ExcItem : Type where
  | classI (t : ExcType)
  | nonTypeI
  | nonExcClassI
deriving DecidableEq

/-- The raw `exceptions` decorator parameter, as Python values:
None (or any falsy value), True, an arbitrary truthy non-iterable non-type
object, a class, a non-Exception class such as int, or an iterable of items. -/
inductive ExcParam : Type where
  | noneP
  | trueP
  | objP
  | classP (t : ExcType)
  | nonExcClassP
  | iterP (xs : List ExcItem)
deriving DecidableEq

/-- Python truthiness of the exceptions parameter (`if exceptions:`). -/
def excTruthy : ExcParam → Bool
  | ExcParam.noneP => false
  | ExcParam.trueP => true
  | ExcParam.objP => true
  | ExcParam.classP _ => true
  | ExcParam.nonExcClassP => true
  | ExcParam.iterP xs => !xs.isEmpty

/-- Whether `iter(exceptions)` succeeds (classes and plain objects are not
iterable). -/
def excIterable : ExcParam → Bool
  | ExcParam.iterP _ => true
  | _ => false

/-- The check `isinstance(exceptions, type) and issubclass(exceptions, Exception)`. -/
def isExcSubclassType : ExcParam → Bool
  | ExcParam.classP t => excSubclass t ExcType.exceptionBase
  | _ => false

/-- The per-item filter `isinstance(e, type) and issubclass(e, Exception)`
used on iterable exceptions parameters, keeping the exception type. -/
def itemExcClass : ExcItem → Option ExcType
  | ExcItem.classI t => if excSubclass t ExcType.exceptionBase then some t else Option.none
  | ExcItem.nonTypeI => Option.none
  | ExcItem.nonExcClassI => Option.none

/-- The normalized cacheable-exception set after Decorator.__init__.
`nonException` models the NonException sentinel (Modelled from the spec:
CachedException.py is not under src/; the sentinel is an exception type no
raised exception is an instance of, so it catches nothing). -/
inductive ExcSpec : Type where
  | nonException
  | catchAll
  | single (t : ExcType)
  | tupleOf (ts : List ExcType)
deriving DecidableEq

/-- Decorator.__init__ lines 180-191: normalize the `exceptions` parameter.
A truthy non-iterable that is not an Exception subclass becomes Exception
(catch-all); an Exception subclass is kept; a truthy iterable is filtered down
to its Exception subclasses, and `tuple(...) or None` turns an empty result
into None, which then becomes the NonException sentinel; every falsy value
becomes the NonException sentinel. -/
def normalizeExceptions (p : ExcParam) : ExcSpec :=
  if excTruthy p then
    if excIterable p then
      match p with
      | ExcParam.iterP xs =>
        match xs.filterMap itemExcClass with
        | [] => ExcSpec.nonException
        | t :: ts => ExcSpec.tupleOf (t :: ts)
      | _ => ExcSpec.nonException
    else
      if isExcSubclassType p then
        match p with
        | ExcParam.classP t => ExcSpec.single t
        | _ => ExcSpec.catchAll
      else ExcSpec.catchAll
  else ExcSpec.nonException

/-- Semantics of `except exceptions as e` for the normalized set: does an
exception whose runtime type is `t` get caught?  Python isinstance against a
class or tuple of classes. -/
def excCatches (spec : ExcSpec) (t : ExcType) : Bool :=
  match spec with
  | ExcSpec.nonException => false
  | ExcSpec.catchAll => excSubclass t ExcType.exceptionBase
  | ExcSpec.single u => excSubclass t u
  | ExcSpec.tupleOf ts => ts.any (fun u => excSubclass t u)

/-! ## Cached values (CachedException) -/

/-- A stored cache entry: an ordinary computed value, or an exception captured
for re-raising. Modelled from the spec for the missing CachedException.py:
CachedException wraps an exception instance so it can be stored as an ordinary
value and re-raised on hit. -/
inductive CVal (β : Type) : Type where
  | value (r : β)
  | cachedException (e : PyExc)
deriving DecidableEq

/-! ## Cache container state (CacheMixin.py) -/

/-- The observable state of one converted cache container
(CacheMixin.__init__): its mapping contents (an insertion-ordered association
list, as a Python dict), the hit/miss counters, and the flags of the automatic
counting machinery. -/
structure MixinState (κ β : Type) : Type where
  data : List (κ × β)
  hits : Nat
  misses : Nat
  countersUsed : Bool
  countersEnabled : Bool
  hitsSuspended : Bool
  missesSuspended : Bool
  missed : Option Bool
deriving DecidableEq

/-- A freshly constructed cache: empty contents, counters reset, automatic
counting disabled, no access in flight (CacheMixin.__init__ lines 93-100). -/
def initMixinState {κ β : Type} : MixinState κ β :=
  { data := [], hits := 0, misses := 0, countersUsed := false,
    countersEnabled := false, hitsSuspended := false, missesSuspended := false,
    missed := Option.none }

/-- A sample populated cache container state used to evaluate claims on
concrete inputs: one stored entry and non-zero counters. -/
def sampleState : MixinState Nat (CVal Nat) :=
  { data := [(3, CVal.value 9)], hits := 5, misses := 4, countersUsed := true,
    countersEnabled := false, hitsSuspended := false, missesSuspended := false,
    missed := Option.none }

/-- Flags of a container with no access in flight; holds initially and is
re-established after every counted lookup. -/
def restFlags {κ β : Type} (s : MixinState κ β) : Prop :=
  s.hitsSuspended = false ∧ s.missesSuspended = false ∧ s.missed = Option.none

section Container

variable {κ β : Type} [DecidableEq κ]

/-- Python dict lookup on the association list (first matching key). -/
def lookupData : List (κ × β) → κ → Option β
  | [], _ => Option.none
  | p :: rest, k => if p.1 = k then some p.2 else lookupData rest k

/-- Python dict store: overwrite in place when the key is present, else append. -/
def setData (d : List (κ × β)) (k : κ) (v : β) : List (κ × β) :=
  if (lookupData d k).isSome then
    d.map (fun p => if p.1 = k then (k, v) else p)
  else d ++ [(k, v)]

/-- Total size of the stored values under a size function (cachetools
currsize; modelled from the spec's container contract, cachetools is not
under src/). -/
def currsizeOf (getsizeof : β → Nat) (d : List (κ × β)) : Nat :=
  (d.map (fun p => getsizeof p.2)).sum

/-- Evict entries (oldest first) until the pending value of size `sz` fits
within capacity `m`. -/
def evictUntilFits (getsizeof : β → Nat) (m sz : Nat) : List (κ × β) → List (κ × β)
  | [] => []
  | p :: rest =>
    if m < currsizeOf getsizeof (p :: rest) + sz then evictUntilFits getsizeof m sz rest
    else p :: rest

/-- Modelled from the spec: the container's set operation (cachetools
Cache.__setitem__, not under src/). May fail with the distinguished
CapacityRejected error (Python ValueError) when the value's own size exceeds
capacity; otherwise evicts entries until the value fits and stores it.
Option.none is the rejection. -/
def containerSet (getsizeof : β → Nat) (maxsize : Option Nat)
    (d : List (κ × β)) (k : κ) (v : β) : Option (List (κ × β)) :=
  match maxsize with
  | Option.none => some (setData d k v)
  | some m =>
    if m < getsizeof v then Option.none
    else
      let d1 := d.filter (fun p => !(decide (p.1 = k)))
      some (setData (evictUntilFits getsizeof m (getsizeof v) d1) k v)

/-- CacheMixin.did_hit. -/
def didHit (s : MixinState κ β) : MixinState κ β :=
  { s with hits := s.hits + 1, countersUsed := true }

/-- CacheMixin.did_miss. -/
def didMiss (s : MixinState κ β) : MixinState κ β :=
  { s with misses := s.misses + 1, countersUsed := true }

/-- CacheMixin.__missing__ (lines 170-179): when counters are enabled and
misses are not suspended, suspend them and record the miss in the `missed`
flag; the underlying container's missing hook then raises KeyError. -/
def mixinMissing (s : MixinState κ β) : MixinState κ β :=
  if s.countersEnabled && !s.missesSuspended then
    { s with missesSuspended := true, missed := some true }
  else s

/-- Modelled from the spec: the underlying container's get (cachetools
Cache.__getitem__, not under src/) — plain mapping lookup that invokes the
(mixin's) missing-key hook on absence and then fails with KeyError, here
Option.none. -/
def innerGetitem (s : MixinState κ β) (k : κ) : Option β × MixinState κ β :=
  match lookupData s.data k with
  | some v => (some v, s)
  | Option.none => (Option.none, mixinMissing s)

/-- CacheMixin.__getitem__ (lines 149-168): when counters are enabled and hits
are not suspended, suspend hits (so internal re-entrant accesses do not count),
perform the underlying lookup, record the hit or the miss exactly once in the
finally block, and reset the in-flight flags. Otherwise, plain lookup. -/
def mixinGetitem (s : MixinState κ β) (k : κ) : Option β × MixinState κ β :=
  if s.countersEnabled && !s.hitsSuspended then
    match innerGetitem { s with hitsSuspended := true, missed := some false } k with
    | (v?, s2) =>
      let s3 : MixinState κ β :=
        match v? with
        | some _ => s2
        | Option.none => { s2 with missed := some true }
      let s4 := if s3.missed = some false then didHit s3 else didMiss s3
      (v?, { s4 with missed := Option.none, hitsSuspended := false, missesSuspended := false })
  else innerGetitem s k

/-- The wrapper's guarded lookup `with lock, cache.counters: v = cache[k]`
(Decorator.py lines 363-368): the CountersContext saves the enabled flag,
enables automatic counting, performs the lookup and restores the flag. -/
def wrapperLookup (s : MixinState κ β) (k : κ) : Option β × MixinState κ β :=
  let saved := s.countersEnabled
  match mixinGetitem { s with countersEnabled := true } k with
  | (v?, s2) => (v?, { s2 with countersEnabled := saved })

/-- The wrapper's store `try: cache[k] = v except ValueError: pass`
(Decorator.py lines 375-379): a capacity rejection is suppressed and the
container is left untouched. -/
def trySet (getsizeof : β → Nat) (maxsize : Option Nat)
    (s : MixinState κ β) (k : κ) (v : β) : MixinState κ β :=
  match containerSet getsizeof maxsize s.data k v with
  | some d => { s with data := d }
  | Option.none => s

/-- CacheMixin.clear (lines 181-188): empty the contents and reset the
counters. -/
def cacheClear (s : MixinState κ β) : MixinState κ β :=
  { s with data := [], hits := 0, misses := 0, countersUsed := false }

end Container

/-- CacheInfo as reported by CacheMixin.info (lines 222-224). -/
structure CacheInfoR : Type where
  hits : Nat
  misses : Nat
  maxsize : Option Nat
  currsize : Nat
deriving DecidableEq

/-- CacheMixin.info: hits, misses, maxsize and current size. -/
def cacheInfo {κ β : Type} (getsizeof : β → Nat) (maxsize : Option Nat)
    (s : MixinState κ β) : CacheInfoR :=
  { hits := s.hits, misses := s.misses, maxsize := maxsize,
    currsize := currsizeOf getsizeof s.data }

/-! ## The call wrapper (Decorator.py, wrapper lines 357-383) -/

/-- The wrapper's tail (lines 380-383): a stored CachedException is re-raised,
an ordinary value is returned. -/
def finishVal {β : Type} : CVal β → Except PyExc β
  | CVal.value r => Except.ok r
  | CVal.cachedException e => Except.error e

/-- Decorator.py wrapper (lines 357-383), for a call that resolved a non-null
cache, as a state-passing function. Inputs: the derived key function, the
original callable (which returns a value or raises), the cacheable-exception
predicate (`except exceptions as e`), the container's size function and
capacity, the call argument and the cache state. Output: the call's outcome
(returned value or raised exception), the new cache state, and whether the
original callable was invoked. -/
def wrapper {κ α β : Type} [DecidableEq κ]
    (keyf : α → κ) (call : α → Except PyExc β) (catches : PyExc → Bool)
    (getsizeof : CVal β → Nat) (maxsize : Option Nat)
    (a : α) (s : MixinState κ (CVal β)) :
    Except PyExc β × MixinState κ (CVal β) × Bool :=
  match wrapperLookup s (keyf a) with
  | (some v, s1) => (finishVal v, s1, false)
  | (Option.none, s1) =>
    match call a with
    | Except.ok r =>
      (finishVal (CVal.value r), trySet getsizeof maxsize s1 (keyf a) (CVal.value r), true)
    | Except.error e =>
      if catches e then
        (finishVal (CVal.cachedException e),
          trySet getsizeof maxsize s1 (keyf a) (CVal.cachedException e), true)
      else (Except.error e, s1, true)

/-- Decorator.py cache_clear accessor (lines 387-391): clear the resolved
cache under its lock. -/
def wrapperCacheClear {κ β : Type} (s : MixinState κ β) : MixinState κ β :=
  cacheClear s

/-- Decorator.py cache_info accessor (lines 392-396): report the resolved
cache's info under its lock. -/
def wrapperCacheInfo {κ β : Type} (getsizeof : β → Nat) (maxsize : Option Nat)
    (s : MixinState κ β) : CacheInfoR :=
  cacheInfo getsizeof maxsize s

/-! ## Decoration-time processing (Decorator.py, decorator lines 195-354) -/

/-- The `stateful` decorator parameter: falsy, truthy non-callable (True), or
a callable taking the given number of positional arguments. -/
inductive StatefulOpt : Type where
  | noneS
  | trueS
  | fnS (nargs : Nat)
deriving DecidableEq

/-- The `shared` decorator parameter: absent, or an accessor callable taking
the given number of positional arguments. -/
inductive AccOpt : Type where
  | noneA
  | fnA (nargs : Nat)
deriving DecidableEq

/-- The `lock` decorator parameter: absent, a lock instance, or an accessor
callable taking the given number of positional arguments. -/
inductive LockOpt : Type where
  | noneL
  | instL
  | fnL (nargs : Nat)
deriving DecidableEq

/-- The decorator parameters relevant to the decoration-time shape checks. -/
structure DecConfig : Type where
  stateful : StatefulOpt
  shared : AccOpt
  lockOpt : LockOpt
deriving DecidableEq

/-- FunctionDefinition (Decorator.py lines 111-142): the decorated callable's
shape. `hasReceiver` is `bool(arg_self)` — whether the first declared
parameter is one of the conventional receiver names ('self'/'cls'), i.e. the
source's isunboundmethod. -/
structure FuncDef : Type where
  isboundmethod : Bool
  isclassmethod : Bool
  hasReceiver : Bool
deriving DecidableEq

/-- Which key-function branch make_key_func selected (CacheKeyHelper.py lines
140-177): the plain-function one, the receiver-stripping one, or the stateful
one. -/
inductive KeyMode : Type where
  | plainK
  | stripReceiverK
  | statefulK
deriving DecidableEq

/-- The observable result of a successful decoration: which configuration
parameters were recorded as irrelevant to this decoration, and which key
function branch was selected. -/
structure DecInfo : Type where
  irrelevant : List String
  keyMode : KeyMode
deriving DecidableEq

/-- Decoration-time processing (Decorator.py decorator, lines 195-354,
restricted to plain-callable accessors — classmethod/staticmethod-wrapped
accessors are not modelled). In source order:
lines 209-215: for a non-method, accessor functions with a receiver argument
raise ValueError when used, and 'stateful' is recorded as irrelevant;
lines 285-294: a callable `shared` accessor with a receiver argument on a
non-method raises; otherwise 'cache' becomes irrelevant;
lines 296-338: without `shared`, a receiver-less callable gets the
function-owned cache and 'shared' becomes irrelevant;
line 343 / CacheKeyHelper.make_key_func lines 140-177: the stateful branch is
only reached for methods, where a callable stateful getter taking no argument
raises; for a plain function stateful is silently ignored;
lines 346-354: a callable `lock` accessor with a receiver argument on a
non-method raises; a falsy lock makes 'lock' irrelevant. -/
def decorate (fd : FuncDef) (cfg : DecConfig) : Except String DecInfo :=
  let isMethod := fd.isboundmethod || fd.hasReceiver
  let irr1 : List String := if isMethod then [] else ["stateful"]
  let sharedStep : Except String (List String) :=
    match cfg.shared with
    | AccOpt.fnA n =>
      if 0 < n && !isMethod then
        Except.error "Shared cache getter with object argument used in non-method function."
      else Except.ok (irr1 ++ ["cache"])
    | AccOpt.noneA =>
      Except.ok (if fd.hasReceiver then irr1 else irr1 ++ ["shared"])
  match sharedStep with
  | Except.error e => Except.error e
  | Except.ok irr2 =>
    let keyStep : Except String KeyMode :=
      if fd.hasReceiver || fd.isboundmethod then
        match cfg.stateful with
        | StatefulOpt.noneS => Except.ok KeyMode.stripReceiverK
        | StatefulOpt.trueS => Except.ok KeyMode.statefulK
        | StatefulOpt.fnS n =>
          if n = 0 then Except.error "Object state getter must accept object as argument."
          else Except.ok KeyMode.statefulK
      else Except.ok KeyMode.plainK
    match keyStep with
    | Except.error e => Except.error e
    | Except.ok km =>
      match cfg.lockOpt with
      | LockOpt.fnL n =>
        if 0 < n && !isMethod then
          Except.error "Lock getter with object argument used in non-method function."
        else Except.ok { irrelevant := irr2, keyMode := km }
      | LockOpt.instL => Except.ok { irrelevant := irr2, keyMode := km }
      | LockOpt.noneL => Except.ok { irrelevant := irr2 ++ ["lock"], keyMode := km }

/-! ## Helper lemmas -/

section Lemmas

variable {κ α β : Type} [DecidableEq κ]

theorem lookupData_append (d1 d2 : List (κ × β)) (k : κ) :
    lookupData (d1 ++ d2) k = (lookupData d1 k).or (lookupData d2 k) := by
  induction d1 with
  | nil => simp [lookupData]
  | cons p rest ih =>
    by_cases h : p.1 = k <;> simp [lookupData, h, ih]

theorem lookupData_map_replace (d : List (κ × β)) (k : κ) (v : β)
    (h : (lookupData d k).isSome) :
    lookupData (d.map (fun p => if p.1 = k then (k, v) else p)) k = some v := by
  induction d with
  | nil => simp [lookupData] at h
  | cons p rest ih =>
    by_cases hp : p.1 = k
    · simp [lookupData, hp]
    · simp [lookupData, hp] at h ⊢
      exact ih h

theorem lookupData_setData_self (d : List (κ × β)) (k : κ) (v : β) :
    lookupData (setData d k v) k = some v := by
  unfold setData
  cases hd : lookupData d k with
  | none =>
    simp [hd, lookupData_append, lookupData]
  | some w =>
    have hs : (lookupData d k).isSome := by simp [hd]
    simp only [hd, Option.isSome_some, if_pos]
    exact lookupData_map_replace d k v hs

/-- The cache state right after the wrapper's counted lookup: contents
unchanged, one counter incremented, in-flight flags reset. -/
def postLookup (s : MixinState κ β) (hit : Bool) : MixinState κ β :=
  { data := s.data,
    hits := if hit then s.hits + 1 else s.hits,
    misses := if hit then s.misses else s.misses + 1,
    countersUsed := true,
    countersEnabled := s.countersEnabled,
    hitsSuspended := false, missesSuspended := false, missed := Option.none }

theorem restFlags_postLookup (s : MixinState κ β) (b : Bool) :
    restFlags (postLookup s b) := ⟨rfl, rfl, rfl⟩

theorem wrapperLookup_spec (s : MixinState κ β) (k : κ) (h : restFlags s) :
    wrapperLookup s k =
      (lookupData s.data k, postLookup s (lookupData s.data k).isSome) := by
  obtain ⟨h1, h2, h3⟩ := h
  unfold wrapperLookup mixinGetitem innerGetitem mixinMissing didHit didMiss postLookup
  cases hl : lookupData s.data k <;> simp [h1, h2, hl]

theorem trySet_unbounded (getsizeof : β → Nat) (s : MixinState κ β) (k : κ) (v : β) :
    trySet getsizeof Option.none s k v = { s with data := setData s.data k v } := rfl

theorem trySet_reject (getsizeof : β → Nat) (m : Nat) (s : MixinState κ β) (k : κ) (v : β)
    (h : m < getsizeof v) :
    trySet getsizeof (some m) s k v = s := by
  unfold trySet containerSet
  simp [h]

theorem trySet_data_only (getsizeof : β → Nat) (ms : Option Nat)
    (s : MixinState κ β) (k : κ) (v : β) :
    trySet getsizeof ms s k v = { s with data := (trySet getsizeof ms s k v).data } := by
  unfold trySet
  cases containerSet getsizeof ms s.data k v <;> rfl

theorem wrapper_hit (keyf : α → κ) (call : α → Except PyExc β) (catches : PyExc → Bool)
    (getsizeof : CVal β → Nat) (ms : Option Nat) (a : α) (s : MixinState κ (CVal β))
    (hrest : restFlags s) (v : CVal β) (hl : lookupData s.data (keyf a) = some v) :
    wrapper keyf call catches getsizeof ms a s = (finishVal v, postLookup s true, false) := by
  unfold wrapper
  rw [wrapperLookup_spec s (keyf a) hrest, hl]
  rfl

theorem wrapper_miss_ok (keyf : α → κ) (call : α → Except PyExc β) (catches : PyExc → Bool)
    (getsizeof : CVal β → Nat) (ms : Option Nat) (a : α) (s : MixinState κ (CVal β))
    (hrest : restFlags s) (r : β)
    (hl : lookupData s.data (keyf a) = Option.none) (hc : call a = Except.ok r) :
    wrapper keyf call catches getsizeof ms a s =
      (Except.ok r, trySet getsizeof ms (postLookup s false) (keyf a) (CVal.value r), true) := by
  unfold wrapper
  rw [wrapperLookup_spec s (keyf a) hrest, hl, hc]
  rfl

theorem wrapper_miss_caught (keyf : α → κ) (call : α → Except PyExc β)
    (catches : PyExc → Bool) (getsizeof : CVal β → Nat) (ms : Option Nat)
    (a : α) (s : MixinState κ (CVal β)) (hrest : restFlags s) (e : PyExc)
    (hl : lookupData s.data (keyf a) = Option.none) (hc : call a = Except.error e)
    (he : catches e = true) :
    wrapper keyf call catches getsizeof ms a s =
      (Except.error e,
        trySet getsizeof ms (postLookup s false) (keyf a) (CVal.cachedException e), true) := by
  unfold wrapper
  rw [wrapperLookup_spec s (keyf a) hrest, hl, hc]
  simp [he, finishVal]

theorem wrapper_miss_uncaught (keyf : α → κ) (call : α → Except PyExc β)
    (catches : PyExc → Bool) (getsizeof : CVal β → Nat) (ms : Option Nat)
    (a : α) (s : MixinState κ (CVal β)) (hrest : restFlags s) (e : PyExc)
    (hl : lookupData s.data (keyf a) = Option.none) (hc : call a = Except.error e)
    (he : catches e = false) :
    wrapper keyf call catches getsizeof ms a s =
      (Except.error e, postLookup s false, true) := by
  unfold wrapper
  rw [wrapperLookup_spec s (keyf a) hrest, hl, hc]
  simp [he]

theorem trySet_hits (getsizeof : β → Nat) (ms : Option Nat)
    (s : MixinState κ β) (k : κ) (v : β) :
    (trySet getsizeof ms s k v).hits = s.hits := by
  unfold trySet
  cases containerSet getsizeof ms s.data k v <;> rfl

theorem trySet_misses (getsizeof : β → Nat) (ms : Option Nat)
    (s : MixinState κ β) (k : κ) (v : β) :
    (trySet getsizeof ms s k v).misses = s.misses := by
  unfold trySet
  cases containerSet getsizeof ms s.data k v <;> rfl

theorem restFlags_trySet (getsizeof : β → Nat) (ms : Option Nat)
    (s : MixinState κ β) (k : κ) (v : β) (h : restFlags s) :
    restFlags (trySet getsizeof ms s k v) := by
  unfold trySet
  cases containerSet getsizeof ms s.data k v <;> exact h

end Lemmas

/-! ## Claims -/

/-- C1: basic memoization. With the derived key function fixed (typed = false
and no stateful only influence which key function is derived) and an unbounded
container, for any two calls whose argument lists produce equal cache keys, if
the first call returns a value then the second call is a cache hit: it returns
the identical stored value, does not invoke the original callable again, and
counts one hit. -/
theorem basic_memoization {κ α β : Type} [DecidableEq κ]
    (keyf : α → κ) (call : α → Except PyExc β) (catches : PyExc → Bool)
    (getsizeof : CVal β → Nat) (a1 a2 : α) (s : MixinState κ (CVal β)) (v : β)
    (hrest : restFlags s) (hkey : keyf a1 = keyf a2)
    (hv : (wrapper keyf call catches getsizeof Option.none a1 s).1 = Except.ok v) :
    (wrapper keyf call catches getsizeof Option.none a2
        (wrapper keyf call catches getsizeof Option.none a1 s).2.1).1 = Except.ok v ∧
    (wrapper keyf call catches getsizeof Option.none a2
        (wrapper keyf call catches getsizeof Option.none a1 s).2.1).2.2 = false ∧
    (wrapper keyf call catches getsizeof Option.none a2
        (wrapper keyf call catches getsizeof Option.none a1 s).2.1).2.1.hits =
      (wrapper keyf call catches getsizeof Option.none a1 s).2.1.hits + 1 := by
  cases hl : lookupData s.data (keyf a1) with
  | some w =>
    rw [wrapper_hit keyf call catches getsizeof Option.none a1 s hrest w hl] at hv ⊢
    cases w with
    | value r =>
      have hrv : r = v := by simpa [finishVal] using hv
      subst hrv
      have hl2 : lookupData (postLookup s true).data (keyf a2) = some (CVal.value r) := by
        show lookupData s.data (keyf a2) = some (CVal.value r)
        rw [← hkey]; exact hl
      rw [wrapper_hit keyf call catches getsizeof Option.none a2 (postLookup s true)
        (restFlags_postLookup s true) (CVal.value r) hl2]
      exact ⟨rfl, rfl, rfl⟩
    | cachedException e => simp [finishVal] at hv
  | none =>
    cases hc : call a1 with
    | ok r =>
      rw [wrapper_miss_ok keyf call catches getsizeof Option.none a1 s hrest r hl hc] at hv ⊢
      have hrv : r = v := by simpa using hv
      subst hrv
      rw [trySet_unbounded getsizeof (postLookup s false) (keyf a1) (CVal.value r)]
      have hl2 : lookupData
          (setData (postLookup s false).data (keyf a1) (CVal.value r)) (keyf a2)
          = some (CVal.value r) := by
        rw [← hkey]
        exact lookupData_setData_self (postLookup s false).data (keyf a1) (CVal.value r)
      rw [wrapper_hit keyf call catches getsizeof Option.none a2
        { postLookup s false with
            data := setData (postLookup s false).data (keyf a1) (CVal.value r) }
        ⟨rfl, rfl, rfl⟩ (CVal.value r) hl2]
      exact ⟨rfl, rfl, rfl⟩
    | error e =>
      cases hce : catches e with
      | true =>
        rw [wrapper_miss_caught keyf call catches getsizeof Option.none a1 s hrest e
          hl hc hce] at hv
        simp [finishVal] at hv
      | false =>
        rw [wrapper_miss_uncaught keyf call catches getsizeof Option.none a1 s hrest e
          hl hc hce] at hv
        simp at hv

theorem basic_memoization_witness :
    restFlags (initMixinState : MixinState Nat (CVal Nat)) ∧
    (fun n : Nat => n) 3 = (fun n : Nat => n) 3 ∧
    (wrapper (fun n : Nat => n) (fun _ => Except.ok 7) (fun _ => false) (fun _ => 1)
        Option.none 3 initMixinState).1 = Except.ok 7 ∧
    (wrapper (fun n : Nat => n) (fun _ => Except.ok 7) (fun _ => false) (fun _ => 1)
        Option.none 3
        (wrapper (fun n : Nat => n) (fun _ => Except.ok 7) (fun _ => false) (fun _ => 1)
          Option.none 3 initMixinState).2.1).1 = Except.ok 7 :=
  ⟨⟨rfl, rfl, rfl⟩, rfl, rfl,
    (basic_memoization (fun n : Nat => n) (fun _ => Except.ok 7) (fun _ => false)
      (fun _ => 1) 3 3 initMixinState 7 ⟨rfl, rfl, rfl⟩ rfl rfl).1⟩

/-- C2: declared-exception caching. With the cacheable-exception set given by
the normalized `exceptions` parameter, if the first call on a cold key raises
an exception the set catches, the wrapper stores it wrapped as a
CachedException and re-raises it, and a second call with an equal key
re-raises the identical exception instance (hence the same type and message)
without invoking the original callable again. -/
theorem cached_exception_replay {κ α β : Type} [DecidableEq κ]
    (keyf : α → κ) (call : α → Except PyExc β) (spec : ExcSpec)
    (getsizeof : CVal β → Nat) (a1 a2 : α) (s : MixinState κ (CVal β)) (e : PyExc)
    (hrest : restFlags s) (hkey : keyf a1 = keyf a2)
    (hcold : lookupData s.data (keyf a1) = Option.none)
    (hc : call a1 = Except.error e) (he : excCatches spec e.ty = true) :
    (wrapper keyf call (fun ex => excCatches spec ex.ty) getsizeof Option.none a1 s).1
      = Except.error e ∧
    lookupData
        (wrapper keyf call (fun ex => excCatches spec ex.ty) getsizeof Option.none a1
          s).2.1.data (keyf a1) = some (CVal.cachedException e) ∧
    (wrapper keyf call (fun ex => excCatches spec ex.ty) getsizeof Option.none a2
        (wrapper keyf call (fun ex => excCatches spec ex.ty) getsizeof Option.none a1
          s).2.1).1 = Except.error e ∧
    (wrapper keyf call (fun ex => excCatches spec ex.ty) getsizeof Option.none a2
        (wrapper keyf call (fun ex => excCatches spec ex.ty) getsizeof Option.none a1
          s).2.1).2.2 = false := by
  rw [wrapper_miss_caught keyf call (fun ex => excCatches spec ex.ty) getsizeof
    Option.none a1 s hrest e hcold hc he]
  rw [trySet_unbounded getsizeof (postLookup s false) (keyf a1) (CVal.cachedException e)]
  have hl2 : lookupData
      (setData (postLookup s false).data (keyf a1) (CVal.cachedException e)) (keyf a1)
      = some (CVal.cachedException e) :=
    lookupData_setData_self (postLookup s false).data (keyf a1) (CVal.cachedException e)
  have hl3 : lookupData
      (setData (postLookup s false).data (keyf a1) (CVal.cachedException e)) (keyf a2)
      = some (CVal.cachedException e) := by rw [← hkey]; exact hl2
  rw [wrapper_hit keyf call (fun ex => excCatches spec ex.ty) getsizeof Option.none a2
    { postLookup s false with
        data := setData (postLookup s false).data (keyf a1) (CVal.cachedException e) }
    ⟨rfl, rfl, rfl⟩ (CVal.cachedException e) hl3]
  exact ⟨rfl, hl2, rfl, rfl⟩

theorem cached_exception_replay_witness :
    restFlags (initMixinState : MixinState Nat (CVal Nat)) ∧
    lookupData (initMixinState : MixinState Nat (CVal Nat)).data 3 = Option.none ∧
    excCatches (ExcSpec.single ExcType.valueError) ExcType.valueError = true ∧
    (wrapper (fun n : Nat => n)
        (fun _ => (Except.error ⟨ExcType.valueError, "bad"⟩ : Except PyExc Nat))
        (fun ex => excCatches (ExcSpec.single ExcType.valueError) ex.ty) (fun _ => 1)
        Option.none 3 initMixinState).1 = Except.error ⟨ExcType.valueError, "bad"⟩ ∧
    (wrapper (fun n : Nat => n)
        (fun _ => (Except.error ⟨ExcType.valueError, "bad"⟩ : Except PyExc Nat))
        (fun ex => excCatches (ExcSpec.single ExcType.valueError) ex.ty) (fun _ => 1)
        Option.none 3
        (wrapper (fun n : Nat => n)
          (fun _ => (Except.error ⟨ExcType.valueError, "bad"⟩ : Except PyExc Nat))
          (fun ex => excCatches (ExcSpec.single ExcType.valueError) ex.ty) (fun _ => 1)
          Option.none 3 initMixinState).2.1).1 = Except.error ⟨ExcType.valueError, "bad"⟩ :=
  ⟨⟨rfl, rfl, rfl⟩, rfl, rfl,
    (cached_exception_replay (fun n : Nat => n)
      (fun _ => (Except.error ⟨ExcType.valueError, "bad"⟩ : Except PyExc Nat))
      (ExcSpec.single ExcType.valueError) (fun _ => 1) 3 3 initMixinState
      ⟨ExcType.valueError, "bad"⟩ ⟨rfl, rfl, rfl⟩ rfl rfl rfl rfl).1,
    (cached_exception_replay (fun n : Nat => n)
      (fun _ => (Except.error ⟨ExcType.valueError, "bad"⟩ : Except PyExc Nat))
      (ExcSpec.single ExcType.valueError) (fun _ => 1) 3 3 initMixinState
      ⟨ExcType.valueError, "bad"⟩ ⟨rfl, rfl, rfl⟩ rfl rfl rfl rfl).2.2.1⟩

/-- C6: undeclared-exception atomicity. If on a cold key the original callable
raises an exception the declared cacheable-exception set does not catch, the
wrapper propagates it, the cache's key-value contents are exactly what they
were before the call, and a later call with an equal key invokes the original
callable again. -/
theorem uncaught_exception_atomic {κ α β : Type} [DecidableEq κ]
    (keyf : α → κ) (call : α → Except PyExc β) (spec : ExcSpec)
    (getsizeof : CVal β → Nat) (ms : Option Nat) (a1 a2 : α)
    (s : MixinState κ (CVal β)) (e : PyExc)
    (hrest : restFlags s) (hkey : keyf a1 = keyf a2)
    (hcold : lookupData s.data (keyf a1) = Option.none)
    (hc : call a1 = Except.error e) (he : excCatches spec e.ty = false) :
    (wrapper keyf call (fun ex => excCatches spec ex.ty) getsizeof ms a1 s).1
      = Except.error e ∧
    (wrapper keyf call (fun ex => excCatches spec ex.ty) getsizeof ms a1 s).2.2 = true ∧
    (wrapper keyf call (fun ex => excCatches spec ex.ty) getsizeof ms a1 s).2.1.data
      = s.data ∧
    (wrapper keyf call (fun ex => excCatches spec ex.ty) getsizeof ms a2
        (wrapper keyf call (fun ex => excCatches spec ex.ty) getsizeof ms a1
          s).2.1).2.2 = true := by
  rw [wrapper_miss_uncaught keyf call (fun ex => excCatches spec ex.ty) getsizeof ms a1 s
    hrest e hcold hc he]
  refine ⟨rfl, rfl, rfl, ?_⟩
  have hcold2 : lookupData (postLookup s false).data (keyf a2) = Option.none := by
    show lookupData s.data (keyf a2) = Option.none
    rw [← hkey]; exact hcold
  cases hc2 : call a2 with
  | ok r =>
    rw [wrapper_miss_ok keyf call (fun ex => excCatches spec ex.ty) getsizeof ms a2
      (postLookup s false) (restFlags_postLookup s false) r hcold2 hc2]
  | error e2 =>
    cases hce2 : excCatches spec e2.ty with
    | true =>
      rw [wrapper_miss_caught keyf call (fun ex => excCatches spec ex.ty) getsizeof ms a2
        (postLookup s false) (restFlags_postLookup s false) e2 hcold2 hc2 hce2]
    | false =>
      rw [wrapper_miss_uncaught keyf call (fun ex => excCatches spec ex.ty) getsizeof ms
        a2 (postLookup s false) (restFlags_postLookup s false) e2 hcold2 hc2 hce2]

theorem uncaught_exception_atomic_witness :
    restFlags (initMixinState : MixinState Nat (CVal Nat)) ∧
    lookupData (initMixinState : MixinState Nat (CVal Nat)).data 3 = Option.none ∧
    excCatches (ExcSpec.single ExcType.valueError) ExcType.typeError = false ∧
    (wrapper (fun n : Nat => n)
        (fun _ => (Except.error ⟨ExcType.typeError, "oops"⟩ : Except PyExc Nat))
        (fun ex => excCatches (ExcSpec.single ExcType.valueError) ex.ty) (fun _ => 1)
        Option.none 3 initMixinState).2.1.data
      = (initMixinState : MixinState Nat (CVal Nat)).data :=
  ⟨⟨rfl, rfl, rfl⟩, rfl, rfl,
    (uncaught_exception_atomic (fun n : Nat => n)
      (fun _ => (Except.error ⟨ExcType.typeError, "oops"⟩ : Except PyExc Nat))
      (ExcSpec.single ExcType.valueError) (fun _ => 1) Option.none 3 3 initMixinState
      ⟨ExcType.typeError, "oops"⟩ ⟨rfl, rfl, rfl⟩ rfl rfl rfl rfl).2.2.1⟩

/-- C7: capacity rejection is non-fatal. If on a cold key the computed value's
size exceeds the container's capacity, the store is rejected and suppressed:
the wrapper still returns the computed value, the original callable was
invoked, and the container's contents and current size are unchanged. -/
theorem capacity_rejection_nonfatal {κ α β : Type} [DecidableEq κ]
    (keyf : α → κ) (call : α → Except PyExc β) (catches : PyExc → Bool)
    (getsizeof : CVal β → Nat) (m : Nat) (a : α) (s : MixinState κ (CVal β)) (r : β)
    (hrest : restFlags s) (hcold : lookupData s.data (keyf a) = Option.none)
    (hc : call a = Except.ok r) (hbig : m < getsizeof (CVal.value r)) :
    (wrapper keyf call catches getsizeof (some m) a s).1 = Except.ok r ∧
    (wrapper keyf call catches getsizeof (some m) a s).2.2 = true ∧
    (wrapper keyf call catches getsizeof (some m) a s).2.1.data = s.data ∧
    currsizeOf getsizeof (wrapper keyf call catches getsizeof (some m) a s).2.1.data
      = currsizeOf getsizeof s.data := by
  rw [wrapper_miss_ok keyf call catches getsizeof (some m) a s hrest r hcold hc]
  rw [trySet_reject getsizeof m (postLookup s false) (keyf a) (CVal.value r) hbig]
  exact ⟨rfl, rfl, rfl, rfl⟩

theorem capacity_rejection_nonfatal_witness :
    restFlags (initMixinState : MixinState Nat (CVal Nat)) ∧
    lookupData (initMixinState : MixinState Nat (CVal Nat)).data 3 = Option.none ∧
    (1 : Nat) < 2 ∧
    (wrapper (fun n : Nat => n) (fun _ => Except.ok 5) (fun _ => false)
        (fun _ => 2) (some 1) 3 initMixinState).1 = Except.ok 5 ∧
    currsizeOf (fun _ => 2)
        (wrapper (fun n : Nat => n) (fun _ => Except.ok 5) (fun _ => false)
          (fun _ => 2) (some 1) 3 initMixinState).2.1.data = 0 :=
  ⟨⟨rfl, rfl, rfl⟩, rfl, by decide,
    (capacity_rejection_nonfatal (fun n : Nat => n) (fun _ => Except.ok 5)
      (fun _ => false) (fun _ => 2) 1 3 initMixinState 5 ⟨rfl, rfl, rfl⟩ rfl rfl
      (by decide)).1,
    by
      rw [(capacity_rejection_nonfatal (fun n : Nat => n) (fun _ => Except.ok 5)
        (fun _ => false) (fun _ => 2) 1 3 initMixinState 5 ⟨rfl, rfl, rfl⟩ rfl rfl
        (by decide)).2.2.2]
      rfl⟩

/-- C8: single counter increment per call. Every wrapper call on a resolved
(non-null) cache increments exactly one counter by exactly one — hits on a
hit, misses on a miss, including misses whose computation raises — and a
container access performed while hit counting is suspended (the re-entrant
case guarded by the mixin's suspension flags) changes neither counter. -/
theorem single_counter_increment {κ α β : Type} [DecidableEq κ]
    (keyf : α → κ) (call : α → Except PyExc β) (catches : PyExc → Bool)
    (getsizeof : CVal β → Nat) (ms : Option Nat) (a : α) (s : MixinState κ (CVal β))
    (hrest : restFlags s) :
    (((wrapper keyf call catches getsizeof ms a s).2.2 = false →
        (wrapper keyf call catches getsizeof ms a s).2.1.hits = s.hits + 1 ∧
        (wrapper keyf call catches getsizeof ms a s).2.1.misses = s.misses) ∧
      ((wrapper keyf call catches getsizeof ms a s).2.2 = true →
        (wrapper keyf call catches getsizeof ms a s).2.1.misses = s.misses + 1 ∧
        (wrapper keyf call catches getsizeof ms a s).2.1.hits = s.hits)) ∧
    ∀ (s2 : MixinState κ (CVal β)) (k : κ), s2.hitsSuspended = true →
      (mixinGetitem s2 k).2.hits = s2.hits ∧ (mixinGetitem s2 k).2.misses = s2.misses := by
  constructor
  · cases hl : lookupData s.data (keyf a) with
    | some w =>
      rw [wrapper_hit keyf call catches getsizeof ms a s hrest w hl]
      exact ⟨fun _ => ⟨rfl, rfl⟩, fun h => Bool.noConfusion h⟩
    | none =>
      cases hc : call a with
      | ok r =>
        rw [wrapper_miss_ok keyf call catches getsizeof ms a s hrest r hl hc]
        refine ⟨fun h => Bool.noConfusion h, fun _ => ⟨?_, ?_⟩⟩
        · rw [trySet_misses]; rfl
        · rw [trySet_hits]; rfl
      | error e =>
        cases hce : catches e with
        | true =>
          rw [wrapper_miss_caught keyf call catches getsizeof ms a s hrest e hl hc hce]
          refine ⟨fun h => Bool.noConfusion h, fun _ => ⟨?_, ?_⟩⟩
          · rw [trySet_misses]; rfl
          · rw [trySet_hits]; rfl
        | false =>
          rw [wrapper_miss_uncaught keyf call catches getsizeof ms a s hrest e hl hc hce]
          exact ⟨fun h => Bool.noConfusion h, fun _ => ⟨rfl, rfl⟩⟩
  · intro s2 k h
    unfold mixinGetitem
    rw [h]
    simp only [Bool.not_true, Bool.and_false, Bool.false_eq_true, if_false]
    unfold innerGetitem
    cases lookupData s2.data k with
    | some v => exact ⟨rfl, rfl⟩
    | none =>
      unfold mixinMissing
      by_cases hc : (s2.countersEnabled && !s2.missesSuspended) = true <;> simp [hc]

theorem single_counter_increment_witness :
    restFlags (initMixinState : MixinState Nat (CVal Nat)) ∧
    ((wrapper (fun n : Nat => n) (fun _ => Except.ok 7) (fun _ => false) (fun _ => 1)
        Option.none 3 initMixinState).2.2 = true →
      (wrapper (fun n : Nat => n) (fun _ => Except.ok 7) (fun _ => false) (fun _ => 1)
          Option.none 3 initMixinState).2.1.misses
        = (initMixinState : MixinState Nat (CVal Nat)).misses + 1 ∧
      (wrapper (fun n : Nat => n) (fun _ => Except.ok 7) (fun _ => false) (fun _ => 1)
          Option.none 3 initMixinState).2.1.hits
        = (initMixinState : MixinState Nat (CVal Nat)).hits) :=
  ⟨⟨rfl, rfl, rfl⟩,
    (single_counter_increment (fun n : Nat => n) (fun _ => Except.ok 7) (fun _ => false)
      (fun _ => 1) Option.none 3 initMixinState ⟨rfl, rfl, rfl⟩).1.2⟩

/-- C9: clear resets everything. After cache_clear, cache_info reports zero
hits, zero misses and zero current size, and the next call (with any argument,
in particular a previously cached one) is a miss that invokes the original
callable and counts one miss. -/
theorem clear_resets {κ α β : Type} [DecidableEq κ]
    (keyf : α → κ) (call : α → Except PyExc β) (catches : PyExc → Bool)
    (getsizeof : CVal β → Nat) (ms : Option Nat) (a : α) (s : MixinState κ (CVal β))
    (hrest : restFlags s) :
    wrapperCacheInfo getsizeof ms (wrapperCacheClear s)
      = { hits := 0, misses := 0, maxsize := ms, currsize := 0 } ∧
    (wrapper keyf call catches getsizeof ms a (wrapperCacheClear s)).2.2 = true ∧
    (wrapper keyf call catches getsizeof ms a (wrapperCacheClear s)).2.1.misses = 1 := by
  refine ⟨rfl, ?_⟩
  have hrest2 : restFlags (wrapperCacheClear s) := hrest
  have hcold : lookupData (wrapperCacheClear s).data (keyf a) = Option.none := rfl
  cases hc : call a with
  | ok r =>
    rw [wrapper_miss_ok keyf call catches getsizeof ms a _ hrest2 r hcold hc]
    refine ⟨rfl, ?_⟩
    rw [trySet_misses]
    rfl
  | error e =>
    cases hce : catches e with
    | true =>
      rw [wrapper_miss_caught keyf call catches getsizeof ms a _ hrest2 e hcold hc hce]
      refine ⟨rfl, ?_⟩
      rw [trySet_misses]
      rfl
    | false =>
      rw [wrapper_miss_uncaught keyf call catches getsizeof ms a _ hrest2 e hcold hc hce]
      exact ⟨rfl, rfl⟩

theorem clear_resets_witness :
    restFlags sampleState ∧
    wrapperCacheInfo (fun _ => 1) (some 10) (wrapperCacheClear sampleState)
      = ⟨0, 0, some 10, 0⟩ ∧
    (wrapper (fun n : Nat => n) (fun _ => Except.ok 9) (fun _ => false) (fun _ => 1)
        (some 10) 3 (wrapperCacheClear sampleState)).2.2 = true :=
  ⟨⟨rfl, rfl, rfl⟩,
    (clear_resets (fun n : Nat => n) (fun _ => Except.ok 9) (fun _ => false) (fun _ => 1)
      (some 10) 3 sampleState ⟨rfl, rfl, rfl⟩).1,
    (clear_resets (fun n : Nat => n) (fun _ => Except.ok 9) (fun _ => false) (fun _ => 1)
      (some 10) 3 sampleState ⟨rfl, rfl, rfl⟩).2.1⟩

/-- C3: receiver stripping. The key function derived for a bound or unbound
method without stateful pops the receiver off the positional arguments and
ignores it entirely: any two receivers with identical remaining positional and
keyword arguments produce equal cache keys. -/
theorem receiver_stripped (o1 o2 : PyVal) (rest : List PyVal)
    (kwargs : List (String × PyVal)) :
    key_func_method (o1 :: rest) kwargs = key_func_method (o2 :: rest) kwargs := rfl

/-- C4 counterexample: decorating a plain function (no receiver parameter)
with stateful=True does not fail — decoration succeeds, with 'stateful'
recorded among the irrelevant parameters, refuting the claim that it raises a
configuration error at decoration time. -/
theorem stateful_plain_function_counterexample :
    decorate { isboundmethod := false, isclassmethod := false, hasReceiver := false }
        { stateful := StatefulOpt.trueS, shared := AccOpt.noneA, lockOpt := LockOpt.noneL }
      = Except.ok ⟨["stateful", "shared", "lock"], KeyMode.plainK⟩ := rfl

/-- C4 amended: the stateful option on a plain function is accepted and
silently ignored — for every stateful option (absent, True, or a callable of
any arity) decoration succeeds, records 'stateful' as irrelevant and selects
the plain (receiver-less) key function; by contrast a shared-cache accessor
that requires a receiver argument does raise at decoration time on a plain
function. -/
theorem stateful_plain_function_ignored (st : StatefulOpt) :
    decorate { isboundmethod := false, isclassmethod := false, hasReceiver := false }
        { stateful := st, shared := AccOpt.noneA, lockOpt := LockOpt.noneL }
      = Except.ok ⟨["stateful", "shared", "lock"], KeyMode.plainK⟩ ∧
    ∀ n : Nat, 0 < n →
      decorate { isboundmethod := false, isclassmethod := false, hasReceiver := false }
          { stateful := st, shared := AccOpt.fnA n, lockOpt := LockOpt.noneL }
        = Except.error
            "Shared cache getter with object argument used in non-method function." := by
  constructor
  · rfl
  · intro n hn
    unfold decorate
    simp [hn]

theorem stateful_plain_function_ignored_witness :
    decorate { isboundmethod := false, isclassmethod := false, hasReceiver := false }
        { stateful := StatefulOpt.fnS 0, shared := AccOpt.noneA, lockOpt := LockOpt.noneL }
      = Except.ok ⟨["stateful", "shared", "lock"], KeyMode.plainK⟩ ∧
    (0 : Nat) < 1 ∧
    decorate { isboundmethod := false, isclassmethod := false, hasReceiver := false }
        { stateful := StatefulOpt.fnS 0, shared := AccOpt.fnA 1, lockOpt := LockOpt.noneL }
      = Except.error
          "Shared cache getter with object argument used in non-method function." :=
  ⟨(stateful_plain_function_ignored (StatefulOpt.fnS 0)).1, by decide,
    (stateful_plain_function_ignored (StatefulOpt.fnS 0)).2 1 (by decide)⟩

/-- C5 counterexample: an alternate key function that simply returns its
arguments does not see the raw call arguments — the list argument has been
normalized into a tuple before the alternate key function is applied, so the
produced key differs from applying the alternate to the raw arguments. -/
theorem custom_key_counterexample :
    key_func_custom (fun a kw => { pos := a, kw := kw }) [PyVal.list [PyVal.int 1]] []
      ≠ (fun (a : List PyVal) (kw : List (String × PyVal)) => { pos := a, kw := kw })
          [PyVal.list [PyVal.int 1]] ([] : List (String × PyVal)) := by
  intro h
  have hpos := congrArg CacheKey.pos h
  simp [key_func_custom, makeListHashable, make_obj_hashable, makeKwargsHashable] at hpos

/-- C5 amended: an explicitly supplied custom key function does not bypass
normalization — it is applied to exactly the same normalized arguments the
standard key function hashes (make_items_hashable is applied first), as
witnessed concretely by a list argument arriving as a tuple. -/
theorem custom_key_sees_normalized :
    (∀ (altkey : List PyVal → List (String × PyVal) → CacheKey)
        (args : List PyVal) (kwargs : List (String × PyVal)),
      key_func_custom altkey args kwargs
        = altkey (key_func_function args kwargs).pos (key_func_function args kwargs).kw) ∧
    key_func_custom (fun a kw => { pos := a, kw := kw }) [PyVal.list [PyVal.int 1]] []
      = { pos := [PyVal.tuple [PyVal.int 1]], kw := [] } := by
  refine ⟨fun _ _ _ => rfl, ?_⟩
  simp [key_func_custom, makeListHashable, make_obj_hashable, makeKwargsHashable]

/-- C10: the two surprising edges of `exceptions` normalization. A truthy
value that is neither an iterable nor an Exception-subclass type (True, an
arbitrary object, a non-Exception class) makes the cacheable set the Exception
catch-all: exactly the exceptions whose type subclasses Exception are caught
(and so cached). An iterable none of whose items is an Exception subclass
normalizes to the NonException sentinel, which catches nothing, so no
exception is ever cached. -/
theorem exceptions_normalization_edges :
    (∀ p : ExcParam, excTruthy p = true → excIterable p = false →
      isExcSubclassType p = false →
      ∀ t : ExcType, excCatches (normalizeExceptions p) t
        = excSubclass t ExcType.exceptionBase) ∧
    (∀ xs : List ExcItem, xs.filterMap itemExcClass = [] →
      normalizeExceptions (ExcParam.iterP xs) = ExcSpec.nonException ∧
      ∀ t : ExcType, excCatches (normalizeExceptions (ExcParam.iterP xs)) t = false) := by
  constructor
  · intro p htru hiter hsub t
    cases p <;>
      simp_all [excTruthy, excIterable, isExcSubclassType, normalizeExceptions, excCatches]
  · intro xs hxs
    have hn : normalizeExceptions (ExcParam.iterP xs) = ExcSpec.nonException := by
      unfold normalizeExceptions
      cases hxe : xs.isEmpty
      · simp [excTruthy, hxe, excIterable, hxs]
      · simp [excTruthy, hxe]
    exact ⟨hn, fun t => by rw [hn]; rfl⟩

theorem exceptions_normalization_edges_witness :
    excTruthy ExcParam.trueP = true ∧
    excIterable ExcParam.trueP = false ∧
    isExcSubclassType ExcParam.trueP = false ∧
    excCatches (normalizeExceptions ExcParam.trueP) ExcType.valueError = true ∧
    excCatches (normalizeExceptions ExcParam.trueP) ExcType.keyboardInterrupt = false ∧
    normalizeExceptions (ExcParam.iterP [ExcItem.nonTypeI]) = ExcSpec.nonException := by
  refine ⟨rfl, rfl, rfl, ?_, ?_,
    (exceptions_normalization_edges.2 [ExcItem.nonTypeI] rfl).1⟩
  · rw [exceptions_normalization_edges.1 ExcParam.trueP rfl rfl rfl ExcType.valueError]
    decide
  · rw [exceptions_normalization_edges.1 ExcParam.trueP rfl rfl rfl
      ExcType.keyboardInterrupt]
    decide

end Cachex
